import Mathlib

/-!
Verification development for the pyplugin dependency-resolution and
load/unload orchestration engine (`pyplugin/base.py`, `pyplugin/group.py`).

The embedding is a shallow state-machine model:

* a fixed finite universe of plugins, identified by `Fin n`;
* per-plugin mutable lifecycle state (`PState`) mirroring the mutable
  attributes of `Plugin` (`requirements`, `dependencies`, `dependents`,
  `instance`, `load_args`, `load_kwargs`, the `__partially_loaded` flag, and
  the mutable `type` metadata);
* per-plugin immutable configuration (`PConf`) mirroring what is fixed at
  construction time (the wrapped callables, their signature as used by
  `make_safe_args`, `enforce_type` / `infer_type`, and — for `PluginGroup` —
  the member list);
* a global trace of callable invocations, used to state "the load callable
  was (not) invoked" properties.

Modelling conventions, recorded once here:

* Python's `empty` sentinel is the value `Val.vempty`; `is_loaded()` is
  `instance ≠ vempty` exactly as in the source.
* `None` for `load_args` / `load_kwargs` (never loaded) is `Option.none`.
* Load / unload callables are opaque pure functions that may raise
  (`Except Unit Val`), matching the spec invariant that a load callable never
  mutates other plugins' lifecycle state directly.
* Requirement targets are resolved `Plugin` references (`Fin n`); the
  string-name / import-lookup resolution path of `lookup_plugin` is an
  external collaborator and is not exercised by the modelled claims.
* `_handle_dynamic_requirements` inspects the live Python call stack; at a
  top-level call, and in every nested call this model performs (dependency
  loads, cascade reloads), the enclosing `load` frame is never inside the
  wrapped callable (`__partially_loaded` is false there), so the source
  function returns without effect.  It is therefore a no-op in the model.
* Python `dict` equality is order-insensitive; `kwEq` implements that.
  `dict` assignment keeps the position of an existing key and appends new
  keys; `aset` implements that.
* Recursion across the plugin graph is fuel-indexed; exhaustion yields the
  distinguished `Err.fuelOut`, which is never wrapped and never equals any
  genuine error of the source.
-/

namespace Pyplugin

/-- Value universe for plugin instances and call arguments.  Python lists are
encoded with `vnil` / `vcons` (see `Val.ofList`); `vempty` is the `empty`
sentinel object from `pyplugin/utils.py`; `vsent` stands for the opaque
callable object pre-bound by `functools.partial` when it flows through
`make_safe_args`. -/
inductive Val where
  | vint (n : Int)
  | vstr (s : String)
  | vbool (b : Bool)
  | vnone
  | vempty
  | vsent
  | vnil
  | vcons (hd tl : Val)
deriving DecidableEq, Repr

/-- Encode a Lean list of values as a Python-list value. -/
def Val.ofList : List Val → Val
  | [] => .vnil
  | v :: rest => .vcons v (Val.ofList rest)

/-- Runtime type descriptors, the model of Python classes used for
`type` metadata, `isinstance` checks and inference (`type(instance)`). -/
inductive Ty where
  | tyInt
  | tyStr
  | tyBool
  | tyNone
  | tyEmpty
  | tySent
  | tyList
deriving DecidableEq, Repr

/-- Model of `type(v)` for the value universe. -/
def runtimeTy : Val → Ty
  | .vint _ => .tyInt
  | .vstr _ => .tyStr
  | .vbool _ => .tyBool
  | .vnone => .tyNone
  | .vempty => .tyEmpty
  | .vsent => .tySent
  | .vnil => .tyList
  | .vcons _ _ => .tyList

/-- Keyword-argument dictionaries: association lists with unique keys,
insertion-ordered like Python dicts. -/
abbrev KW := List (String × Val)

/-- Dictionary lookup (generic over the value type). -/
def alookup {α : Type} : List (String × α) → String → Option α
  | [], _ => none
  | (k, v) :: rest, key => if k = key then some v else alookup rest key

/-- Dictionary assignment `d[k] = v`: replaces in place if the key exists,
otherwise appends — Python dict insertion-order semantics. -/
def aset {α : Type} : List (String × α) → String → α → List (String × α)
  | [], key, v => [(key, v)]
  | (k, w) :: rest, key, v =>
    if k = key then (k, v) :: rest else (k, w) :: aset rest key v

/-- Dictionary deletion `del d[k]`. -/
def aerase {α : Type} : List (String × α) → String → List (String × α)
  | [], _ => []
  | (k, w) :: rest, key => if k = key then rest else (k, w) :: aerase rest key

/-- Membership test `k in d`. -/
def ahas {α : Type} (d : List (String × α)) (key : String) : Bool :=
  (alookup d key).isSome

/-- Model of `d.pop(k)`: the removed value (if any) and the remaining dict. -/
def apop {α : Type} (d : List (String × α)) (key : String) :
    Option α × List (String × α) :=
  (alookup d key, aerase d key)

/-- Model of `d.setdefault(k, v)`. -/
def kwSetdefault (d : KW) (key : String) (v : Val) : KW :=
  if ahas d key then d else d ++ [(key, v)]

/-- Fold `setdefault` over a source dict, as in
`for key, value in src.items(): d.setdefault(key, value)`. -/
def kwSetDefaults (d : KW) (src : KW) : KW :=
  src.foldl (fun acc kv => kwSetdefault acc kv.1 kv.2) d

/-- Python dict equality: same key set, equal values, order-insensitive. -/
def kwEq (a b : KW) : Bool :=
  a.all (fun kv => alookup b kv.1 = some kv.2) &&
    b.all (fun kv => alookup a kv.1 = some kv.2)

/-- Errors of the engine, mirroring `pyplugin/exceptions.py`.  `userRaise`
stands for an arbitrary non-`PluginError` exception escaping a wrapped
callable; `fuelOut` is the model artifact for exhausted recursion fuel. -/
inductive Err where
  | midLoadErr (name : String)
  | circular (path : List String)
  | loadFailed (name : String) (cause : Err)
  | alreadyLoaded (name : String)
  | alreadyUnloaded (name : String)
  | unloadFailed (name : String) (cause : Err)
  | typeErr (name : String)
  | inconsistentDep (name dependentName : String)
  | registerErr (name : String)
  | requirementErr (dest : String)
  | dependencyErr (dest : String)
  | userRaise (name : String)
  | fuelOut
deriving DecidableEq, Repr

/-- Does the exception match `except PluginError`?  `userRaise` models an
exception type from outside the `PluginError` hierarchy, and `fuelOut` is not
an exception of the source at all. -/
def Err.isPluginError : Err → Bool
  | .userRaise _ => false
  | .fuelOut => false
  | _ => true

/-- Does the exception match `except CircularDependencyError`? -/
def Err.isCircular : Err → Bool
  | .circular _ => true
  | _ => false

/-- Conflict strategies of `Plugin.load`. -/
inductive LoadCS where
  | keepExisting
  | replace
  | force
  | error
deriving DecidableEq, Repr

/-- Conflict strategies of `Plugin.unload`. -/
inductive UnloadCS where
  | ignore
  | error
deriving DecidableEq, Repr

/-- Conflict strategies of `register` and `Plugin.add_requirement`. -/
inductive RegCS where
  | replace
  | keepExisting
  | error
deriving DecidableEq, Repr

/-- Callable signature data as consumed by `make_safe_args`:
`sigParams` is the full name sequence iterated by
`inspect.signature(func).parameters` (named parameters, then the `*args`
name, then the `**kwargs` name); `varargs` / `varkw` mirror
`argspec.varargs` / `argspec.varkw` being non-`None`; `bound` is the number
of positional arguments pre-bound by `functools.partial`. -/
structure Sig where
  sigParams : List String
  varargs : Bool
  varkw : Bool
  bound : Nat
deriving DecidableEq, Repr

/-- Mutable lifecycle state of one `Plugin` (the fields of `Plugin` mutated
by `load` / `unload` / `add_requirement`). -/
structure PState (n : Nat) where
  requirements : List (String × Fin n)
  dependencies : List (String × Fin n)
  dependents : List (Fin n)
  inst : Val
  loadArgs : Option (List Val)
  loadKwargs : Option KW
  midLoad : Bool
  ty : Option Ty
  isClassType : Bool
deriving DecidableEq, Repr

/-- The lifecycle state of a plugin that was just constructed and has never
been loaded. -/
def PState.fresh (n : Nat) (reqs : List (String × Fin n)) : PState n :=
  { requirements := reqs
    dependencies := []
    dependents := []
    inst := .vempty
    loadArgs := none
    loadKwargs := none
    midLoad := false
    ty := none
    isClassType := false }

/-- Distinguishes an ordinary `Plugin` from a `PluginGroup` (whose wrapped
load/unload callables are `_group_load` / `_group_unload` over the member
list; the model covers the default `void_args` hook, for which the
generator machinery of `_group_load` is skipped because the hook returns a
falsy value). -/
inductive PKind (n : Nat) where
  | plain
  | group (members : List (Fin n))

/-- Immutable configuration of one `Plugin`, fixed at construction. -/
structure PConf (n : Nat) where
  name : String
  sig : Sig
  loadFn : List Val → KW → Except Unit Val
  unloadFn : Val → Except Unit Val
  callbacks : List (Val → Val)
  enforceType : Bool
  inferType : Bool
  kind : PKind n

/-- A world: the configuration of every plugin in the universe. -/
structure World (n : Nat) where
  conf : Fin n → PConf n

/-- Map from plugin to its mutable state. -/
abbrev PMap (n : Nat) := Fin n → PState n

/-- Pointwise state update. -/
def update {n : Nat} (ps : PMap n) (p : Fin n) (st : PState n) : PMap n :=
  fun q => if q = p then st else ps q

/-- Model of `Plugin.is_loaded`: the instance is not the `empty` sentinel. -/
def isLoadedPS {n : Nat} (ps : PMap n) (p : Fin n) : Bool :=
  (ps p).inst != Val.vempty

/-- Observable events: invocations of wrapped load / unload callables. -/
inductive Ev (n : Nat) where
  | loadCall (p : Fin n) (args : List Val) (kwargs : KW)
  | unloadCall (p : Fin n) (inst : Val)
deriving DecidableEq, Repr

/-- Global system state: all plugin states plus the invocation trace. -/
structure Sys (n : Nat) where
  ps : PMap n
  trace : List (Ev n)

/-- Convenience projection. -/
def isLoaded {n : Nat} (sys : Sys n) (p : Fin n) : Bool :=
  isLoadedPS sys.ps p

end Pyplugin

namespace Pyplugin

/-! ### Registry (`register` / `unregister`, base.py lines 30-109)

The registry maps a name to the tuple `(plugin, kwargs)`.  Plugins are
identified by an object id; `PyObj` models Python object identity so that
the source's check `_PLUGIN_REGISTRY[name] is plugin` — which compares the
stored *tuple* against the *plugin* object — can be translated literally. -/

/-- One registry entry: the registered plugin's object id and the stored
registration metadata (of which the model keeps the `transient` flag the
source consults). -/
structure RegEntry where
  pid : Nat
  transient : Bool
deriving DecidableEq, Repr

/-- The registry: ordered map from name to `(plugin, kwargs)` entry. -/
abbrev Registry := List (String × RegEntry)

/-- Python object identity for the objects compared by `register`:
a `Plugin` object is never the same object as a `(plugin, kwargs)` tuple. -/
inductive PyObj where
  | pluginRef (pid : Nat)
  | entryPair (e : RegEntry)
deriving DecidableEq, Repr

/-- Model of `unregister(name, conflict_strategy)` (base.py lines 80-109):
fails when the name is absent (under `error`) or when the occupant is
loaded; otherwise pops the entry. -/
def unregisterFn (reg : Registry) (loaded : Nat → Bool) (name : String)
    (cs : UnloadCS) : Except Err (Registry × Option Nat) :=
  match alookup reg name with
  | none =>
    match cs with
    | .ignore => .ok (reg, none)
    | .error => .error (.registerErr name)
  | some e =>
    if loaded e.pid then .error (.registerErr name)
    else .ok (aerase reg name, some e.pid)

/-- Model of `register(plugin, name, conflict_strategy, transient)`
(base.py lines 30-77).  The conflict block is skipped when the existing
entry is transient; inside it, the source's same-object test compares the
stored tuple with the plugin (`_PLUGIN_REGISTRY[name] is plugin`), which is
translated literally via `PyObj`.  On success the name is assigned the new
`(plugin, kwargs)` entry and the registered plugin is returned. -/
def registerFn (reg : Registry) (loaded : Nat → Bool) (pid : Nat)
    (name : String) (cs : RegCS) (transient : Bool) :
    Except Err (Registry × Nat) :=
  match alookup reg name with
  | some entry =>
    if !entry.transient then
      if PyObj.entryPair entry = PyObj.pluginRef pid then .ok (reg, entry.pid)
      else
        match cs with
        | .keepExisting => .ok (reg, entry.pid)
        | .replace =>
          match unregisterFn reg loaded name .error with
          | .error e => .error e
          | .ok (reg1, _) => .ok (aset reg1 name ⟨pid, transient⟩, pid)
        | .error => .error (.registerErr name)
    else .ok (aset reg name ⟨pid, transient⟩, pid)
  | none => .ok (aset reg name ⟨pid, transient⟩, pid)

/-! ### Requirements (`Plugin.add_requirement`, base.py lines 514-584) -/

/-- Model of `Plugin._add_requirement` for an already-normalised
`PluginRequirement(plugin, dest)` whose target is a concrete plugin.
Requirement equality compares `dest` and the target plugin's identity. -/
def addRequirementCore {n : Nat} (st : PState n) (dest : String)
    (target : Fin n) (cs : RegCS) : PState n × Except Err Unit :=
  match alookup st.requirements dest with
  | some existing =>
    if existing ≠ target then
      match cs with
      | .replace =>
        let st1 := { st with requirements := aerase st.requirements dest }
        ({ st1 with requirements := aset st1.requirements dest target }, .ok ())
      | .keepExisting => (st, .ok ())
      | .error => (st, .error (.requirementErr dest))
    else ({ st with requirements := aset st.requirements dest target }, .ok ())
  | none =>
    ({ st with requirements := aset st.requirements dest target }, .ok ())

/-- Model of `Plugin.add_requirement` (base.py lines 560-584): rejected
outright when the plugin is loaded, before any normalisation or conflict
handling. -/
def addRequirement {n : Nat} (st : PState n) (dest : String) (target : Fin n)
    (cs : RegCS) : PState n × Except Err Unit :=
  if st.inst ≠ Val.vempty then (st, .error (.requirementErr dest))
  else addRequirementCore st dest target cs

/-! ### Dependency population (`Plugin._populate_dependencies` and
`_populate_one_dependency`, base.py lines 586-626) -/

/-- Model of `Plugin._populate_one_dependency(dependency, dest,
conflict_strategy)`: record the edge in `dependencies`, appending `self` to
the dependency's `dependents` when not already present. -/
def populateOneInsert {n : Nat} (ps : PMap n) (self dep : Fin n)
    (dest : String) : PMap n :=
  let ps1 := update ps self
    { ps self with dependencies := aset (ps self).dependencies dest dep }
  let dst := ps1 dep
  if self ∈ dst.dependents then ps1
  else update ps1 dep { dst with dependents := dst.dependents ++ [self] }

/-- Conflict-handling wrapper of `_populate_one_dependency`. -/
def populateOne {n : Nat} (ps : PMap n) (self dep : Fin n) (dest : String)
    (cs : RegCS) : PMap n × Option Err :=
  match alookup (ps self).dependencies dest with
  | some q =>
    if q ≠ dep then
      match cs with
      | .replace =>
        let ps1 := update ps self
          { ps self with dependencies := aerase (ps self).dependencies dest }
        (populateOneInsert ps1 self dep dest, none)
      | .keepExisting => (ps, none)
      | .error => (ps, some (.dependencyErr dest))
    else (populateOneInsert ps self dep dest, none)
  | none => (populateOneInsert ps self dep dest, none)

mutual

/-- Model of `Plugin._populate_dependencies(seen)` (base.py lines 609-626):
reset `dependencies`, fail with `CircularDependencyError` when `self` is on
the visited path, otherwise resolve every requirement in declaration order,
recursively populate it with `seen + [self]`, and record the edge.  The
fuel argument is a model artifact (it strictly decreases on every call so
that the definition is structural and computes in the kernel). -/
def populateDependencies {n : Nat} (w : World n) :
    Nat → Fin n → List (Fin n) → PMap n → PMap n × Option Err
  | 0, _, _, ps => (ps, some .fuelOut)
  | fuel + 1, p, seen, ps =>
    let ps1 := update ps p { ps p with dependencies := [] }
    if p ∈ seen then
      (ps1, some (.circular ((seen ++ [p]).map (fun q => (w.conf q).name))))
    else
      populateReqList w fuel p ((ps1 p).requirements) (seen ++ [p]) ps1
termination_by structural fuel _ _ _ => fuel

/-- The requirement loop of `_populate_dependencies`. -/
def populateReqList {n : Nat} (w : World n) :
    Nat → Fin n → List (String × Fin n) → List (Fin n) → PMap n →
    PMap n × Option Err
  | 0, _, _, _, ps => (ps, some .fuelOut)
  | _ + 1, _, [], _, ps => (ps, none)
  | fuel + 1, p, (dest, q) :: rest, seen, ps =>
    match populateDependencies w fuel q seen ps with
    | (ps1, some e) => (ps1, some e)
    | (ps1, none) =>
      match populateOne ps1 p q dest .replace with
      | (ps2, some e) => (ps2, some e)
      | (ps2, none) => populateReqList w fuel p rest seen ps2
termination_by structural fuel _ _ _ _ => fuel

end

/-! ### Argument reconciliation (`make_safe_args`, utils.py lines 104-176)

The Python function mutates the caller's `kwargs` dict in place
(`kwargs.pop(param)`), and `Plugin.load` keeps using that dict afterwards;
the model therefore returns the leftover caller kwargs as a third
component. -/

/-- Accumulator of the parameter loop of `make_safe_args`. -/
structure MSAcc where
  paramArgs : List Val
  paramKwargs : KW
  args : List Val
  kwargs : KW
  defArgs : List Val
  defKwargs : KW

/-- One iteration of `for param in inspect.signature(func).parameters`:
source order is kwargs, args, default_kwargs, default_args; consuming an
explicit positional also drops the first remaining default positional. -/
def msaStep (acc : MSAcc) (param : String) : MSAcc :=
  match alookup acc.kwargs param with
  | some v =>
    { acc with
      paramKwargs := acc.paramKwargs ++ [(param, v)]
      kwargs := aerase acc.kwargs param }
  | none =>
    match acc.args with
    | a :: rest =>
      { acc with
        paramArgs := acc.paramArgs ++ [a]
        args := rest
        defArgs := acc.defArgs.tail }
    | [] =>
      match alookup acc.defKwargs param with
      | some v =>
        { acc with
          paramKwargs := acc.paramKwargs ++ [(param, v)]
          defKwargs := aerase acc.defKwargs param }
      | none =>
        match acc.defArgs with
        | d :: rest => { acc with paramArgs := acc.paramArgs ++ [d], defArgs := rest }
        | [] => acc

/-- Model of `make_safe_args(func, args, kwargs, default_args,
default_kwargs)`: the final positional arguments, the final keyword
arguments, and the caller's kwargs dict after the in-place pops. -/
def makeSafeArgs (sig : Sig) (args : List Val) (kwargs : KW)
    (defaultArgs : List Val) (defaultKwargs : KW) : List Val × KW × KW :=
  let args0 := List.replicate sig.bound Val.vsent ++ args
  let acc0 : MSAcc := ⟨[], [], args0, kwargs, defaultArgs, defaultKwargs⟩
  let acc := sig.sigParams.foldl msaStep acc0
  let argsF :=
    if sig.varargs then
      acc.paramArgs ++ acc.args ++ acc.defArgs.drop acc.args.length
    else acc.paramArgs
  let kwargsF :=
    if sig.varkw then kwSetDefaults (kwSetDefaults acc.paramKwargs acc.kwargs) acc.defKwargs
    else acc.paramKwargs
  (argsF.drop sig.bound, kwargsF, acc.kwargs)

/-- The argument-construction stage of `Plugin.load` (base.py lines
767-788): previous-load defaults, `make_safe_args` for the default sources,
merging the results into `args` / `kwargs`, and the optional `safe_args`
pass.  Returns the final call arguments. -/
def mergeStage (sig : Sig) (args : List Val) (kwargs : KW) (dpa safeArgs : Bool)
    (st : PState n) (depKwargs : KW) : List Val × KW :=
  let defaultKwargs :=
    if dpa then
      match st.loadKwargs with
      | some l => if l.isEmpty then depKwargs else kwSetDefaults depKwargs l
      | none => depKwargs
    else depKwargs
  let prevArgs := if dpa then st.loadArgs.getD [] else []
  let msa := makeSafeArgs sig args kwargs prevArgs defaultKwargs
  let args2 := args ++ msa.1.drop args.length
  let kwargs2 := kwSetDefaults msa.2.2 msa.2.1
  if safeArgs then
    let msa2 := makeSafeArgs sig args2 kwargs2 [] []
    (msa2.1, msa2.2.1)
  else (args2, kwargs2)

/-- The conflict comparison `(self.load_args, self.load_kwargs) ==
(args, kwargs)`: positional arguments compare as ordered lists, keyword
arguments as Python dicts; `None` never equals a list/dict. -/
def argsMatch (st : PState n) (a : List Val) (k : KW) : Bool :=
  (match st.loadArgs with
    | some l => decide (l = a)
    | none => false) &&
  (match st.loadKwargs with
    | some m => kwEq m k
    | none => false)

/-! ### Type enforcement and inference (base.py lines 689-701, 913-917) -/

/-- Model of `Plugin._handle_enforce_type(instance)` with the default
arguments: when `enforce_type` is set and a type is declared, compare via
`issubclass` (class-typed) or `isinstance`.  The value universe contains no
class objects, so the `issubclass` comparison never succeeds; `isinstance`
is modelled as runtime-type equality. -/
def handleEnforceType (conf : PConf n) (st : PState n) (v : Val) : Option Err :=
  if conf.enforceType then
    match st.ty with
    | some t =>
      if st.isClassType then some (.typeErr conf.name)
      else if runtimeTy v = t then none
      else some (.typeErr conf.name)
    | none => none
  else none

/-- Model of the inference step `if not self.type and self.infer_type:
self._set_type_from_instance(instance)`.  The source's special case for an
instance that is itself a class is unreachable here because `Val` contains
no class objects. -/
def inferTyStep (conf : PConf n) (st : PState n) (v : Val) : PState n :=
  if st.ty = none && conf.inferType then { st with ty := some (runtimeTy v) }
  else st

/-! ### Load / unload orchestration (base.py lines 628-899, group.py
lines 66-159) -/

/-- Clear the `__partially_loaded` flag of `p` (the `finally` clause of
`Plugin._partial_load_context`). -/
def clearFlag (sys : Sys n) (p : Fin n) : Sys n :=
  { sys with ps := update sys.ps p { sys.ps p with midLoad := false } }

/-- Store a value into `p.instance`. -/
def setInst (sys : Sys n) (p : Fin n) (v : Val) : Sys n :=
  { sys with ps := update sys.ps p { sys.ps p with inst := v } }

/-- The signature `make_safe_args` inspects for this plugin's
`_load_callable`: for a `PluginGroup` that callable is always
`functools.partial(self._group_load, load_callable)`, whose bound-method
signature is `(load_callable, *args, **kwargs)` with one pre-bound
positional argument. -/
def sigOf (conf : PConf n) : Sig :=
  match conf.kind with
  | .plain => conf.sig
  | .group _ => ⟨["load_callable", "args", "kwargs"], true, true, 1⟩

/-- Decode the `conflict_strategy` string value a group passes to a member's
`load` call. -/
def decodeLoadCS : Option Val → LoadCS
  | some (.vstr "keep_existing") => .keepExisting
  | some (.vstr "force") => .force
  | some (.vstr "error") => .error
  | _ => .replace

/-- Decode a boolean keyword value with the given default. -/
def decodeBool : Option Val → Bool → Bool
  | some (.vbool b), _ => b
  | _, d => d

/-- The dependency list `_load_dependencies` iterates: all of
`self.dependencies` for a plain plugin; for a `PluginGroup` the override of
group.py lines 66-74 skips dependencies that are members of the group
(`if plugin in self: continue`). -/
def depsToLoad (conf : PConf n) (ps : PMap n) (p : Fin n) :
    List (String × Fin n) :=
  match conf.kind with
  | .plain => (ps p).dependencies
  | .group mems => (ps p).dependencies.filter (fun dq => !(mems.contains dq.2))

mutual

/-- Model of `Plugin.load(*args, conflict_strategy, default_previous_args,
safe_args, **kwargs)` (base.py lines 703-828), stage for stage:
reentrancy guard, dependency population (circular errors re-raised,
other plugin errors wrapped in `PluginLoadError`), snapshot of loaded
dependents, dependency loading, argument merging, the conflict check
against the recorded previous load, and the invocation step.  The fuel
argument is a model artifact: it strictly decreases on every call of the
mutual block so that the definitions are structural and compute in the
kernel. -/
def load (w : World n) :
    Nat → Fin n → List Val → KW → LoadCS → Bool → Bool → Sys n →
    Sys n × Except Err Val
  | 0, _, _, _, _, _, _, sys => (sys, .error .fuelOut)
  | fuel + 1, p, args, kwargs, cs, dpa, safeArgs, sys =>
    let conf := w.conf p
    if (sys.ps p).midLoad then (sys, .error (.midLoadErr conf.name))
    else
      match populateDependencies w (fuel + 1) p [] sys.ps with
      | (ps1, some e) =>
        if e.isCircular then ({ sys with ps := ps1 }, .error e)
        else if e.isPluginError then
          ({ sys with ps := ps1 }, .error (.loadFailed conf.name e))
        else ({ sys with ps := ps1 }, .error e)
      | (ps1, none) =>
        let sys1 : Sys n := { sys with ps := ps1 }
        let loadedDependents := (ps1 p).dependents.filter (isLoadedPS ps1)
        match loadDependenciesList w fuel (depsToLoad conf ps1 p) kwargs [] sys1 with
        | (sys2, .error e) =>
          if e.isPluginError then (sys2, .error (.loadFailed conf.name e))
          else (sys2, .error e)
        | (sys2, .ok depKwargs) =>
          let merged := mergeStage (sigOf conf) args kwargs dpa safeArgs
            (sys2.ps p) depKwargs
          if isLoaded sys2 p then
            if argsMatch (sys2.ps p) merged.1 merged.2 && !(cs = .force) then
              (sys2, .ok (sys2.ps p).inst)
            else if cs = .replace || cs = .force then
              match unload w fuel p .ignore true sys2 with
              | (sys3, .error e) => (sys3, .error e)
              | (sys3, .ok _) =>
                loadInvoke w fuel p merged.1 merged.2 loadedDependents sys3
            else if cs = .keepExisting then (sys2, .ok (sys2.ps p).inst)
            else (sys2, .error (.alreadyLoaded conf.name))
          else loadInvoke w fuel p merged.1 merged.2 loadedDependents sys2
termination_by structural fuel _ _ _ _ _ _ _ => fuel

/-- The tail of `Plugin.load` from recording `load_args` / `load_kwargs`
onwards (base.py lines 808-828): set the reentrancy flag via
`_partial_load_context`, invoke the wrapped callable and the callbacks,
clear the flag even on exception, enforce / infer the result type, store
the instance, and force-reload the snapshotted loaded dependents. -/
def loadInvoke (w : World n) :
    Nat → Fin n → List Val → KW → List (Fin n) → Sys n →
    Sys n × Except Err Val
  | 0, _, _, _, _, sys => (sys, .error .fuelOut)
  | fuel + 1, p, argsF, kwargsF, loadedDependents, sys =>
    let conf := w.conf p
    let st1 := { sys.ps p with loadArgs := some argsF, loadKwargs := some kwargsF }
    if st1.midLoad then
      ({ sys with ps := update sys.ps p st1 }, .error (.midLoadErr conf.name))
    else
      let sysA : Sys n :=
        { ps := update sys.ps p { st1 with midLoad := true }
          trace := sys.trace ++ [.loadCall p argsF kwargsF] }
      match invokeLoadCallable w fuel p argsF kwargsF sysA with
      | (sysB, .error e) => (clearFlag sysB p, .error e)
      | (sysB, .ok v0) =>
        let v := conf.callbacks.foldl (fun acc cb => cb acc) v0
        let sysC := clearFlag sysB p
        match handleEnforceType conf (sysC.ps p) v with
        | some e => (sysC, .error e)
        | none =>
          let sysD : Sys n :=
            { sysC with ps := update sysC.ps p (inferTyStep conf (sysC.ps p) v) }
          let sysE := setInst sysD p v
          match loadDependentsList w fuel p loadedDependents sysE with
          | (sysF, some e) =>
            if e.isPluginError then (sysF, .error (.loadFailed conf.name e))
            else (sysF, .error e)
          | (sysF, none) => (sysF, .ok (sysF.ps p).inst)
termination_by structural fuel _ _ _ _ _ => fuel

/-- Invocation of the wrapped load callable: the user's callable for a
plain plugin, `_group_load` for a group. -/
def invokeLoadCallable (w : World n) :
    Nat → Fin n → List Val → KW → Sys n → Sys n × Except Err Val
  | 0, _, _, _, sys => (sys, .error .fuelOut)
  | fuel + 1, p, argsF, kwargsF, sys =>
    match (w.conf p).kind with
    | .plain =>
      match (w.conf p).loadFn argsF kwargsF with
      | .ok v => (sys, .ok v)
      | .error () => (sys, .error (.userRaise (w.conf p).name))
    | .group mems => groupLoadInvoke w fuel p mems argsF kwargsF sys
termination_by structural fuel _ _ _ _ => fuel

/-- Model of `PluginGroup._group_load` with the default `void_args` hook
(group.py lines 76-119): set the `safe_args` / `conflict_strategy`
defaults, then load every member in list order; the keys that name
parameters of `Plugin.load` itself bind to those parameters in the call
`plugin.load(*args, **kwargs)`. -/
def groupLoadInvoke (w : World n) :
    Nat → Fin n → List (Fin n) → List Val → KW → Sys n →
    Sys n × Except Err Val
  | 0, _, _, _, _, sys => (sys, .error .fuelOut)
  | fuel + 1, p, mems, args, kwargs, sys =>
    let kwargs1 := kwSetdefault kwargs "safe_args" (.vbool true)
    let kwargs2 := kwSetdefault kwargs1 "conflict_strategy" (.vstr "keep_existing")
    let cs := decodeLoadCS (alookup kwargs2 "conflict_strategy")
    let dpa := decodeBool (alookup kwargs2 "default_previous_args") true
    let sa := decodeBool (alookup kwargs2 "safe_args") false
    let rest := aerase (aerase (aerase kwargs2 "conflict_strategy") "safe_args")
      "default_previous_args"
    groupLoadList w fuel p mems args rest cs dpa sa [] sys
termination_by structural fuel _ _ _ _ _ => fuel

/-- The member loop of `_group_load`: load each member, run the group's
type inference on the member instance, and collect the instances in member
order into the group's instance list. -/
def groupLoadList (w : World n) :
    Nat → Fin n → List (Fin n) → List Val → KW → LoadCS → Bool → Bool →
    List Val → Sys n → Sys n × Except Err Val
  | 0, _, _, _, _, _, _, _, _, sys => (sys, .error .fuelOut)
  | _ + 1, _, [], _, _, _, _, _, acc, sys => (sys, .ok (Val.ofList acc))
  | fuel + 1, gp, m :: ms, args, rest, cs, dpa, sa, acc, sys =>
    match load w fuel m args rest cs dpa sa sys with
    | (sys1, .error e) => (sys1, .error e)
    | (sys1, .ok v) =>
      let gst := inferTyStep (w.conf gp) (sys1.ps gp) v
      let sys2 : Sys n := { sys1 with ps := update sys1.ps gp gst }
      groupLoadList w fuel gp ms args rest cs dpa sa (acc ++ [v]) sys2
termination_by structural fuel _ _ _ _ _ _ _ _ _ => fuel

/-- Model of `Plugin._load_dependencies(kwargs)` (base.py lines 628-634;
the member filtering of the `PluginGroup` override is applied by the caller
through `depsToLoad`): load each dependency whose `dest` is not already
supplied, with `conflict_strategy="keep_existing"`, collecting
`dest -> instance`. -/
def loadDependenciesList (w : World n) :
    Nat → List (String × Fin n) → KW → KW → Sys n → Sys n × Except Err KW
  | 0, _, _, _, sys => (sys, .error .fuelOut)
  | _ + 1, [], _, acc, sys => (sys, .ok acc)
  | fuel + 1, (dest, q) :: rest, kwargs, acc, sys =>
    if ahas kwargs dest then loadDependenciesList w fuel rest kwargs acc sys
    else
      match load w fuel q [] [] .keepExisting true false sys with
      | (sys1, .error e) => (sys1, .error e)
      | (sys1, .ok v) =>
        loadDependenciesList w fuel rest kwargs (aset acc dest v) sys1
termination_by structural fuel _ _ _ _ => fuel

/-- Model of `Plugin._load_dependents(dependents)` (base.py lines 636-648),
translated statement for statement: the source scans the first dependent's
dependency map for `self`; on a hit it force-reloads that dependent and
then executes `return`, leaving the remaining dependents unprocessed; with
no hit it raises `InconsistentDependencyError`.  Either way the loop never
advances past its first element. -/
def loadDependentsList (w : World n) :
    Nat → Fin n → List (Fin n) → Sys n → Sys n × Option Err
  | 0, _, _, sys => (sys, some .fuelOut)
  | _ + 1, _, [], sys => (sys, none)
  | fuel + 1, self, d :: _rest, sys =>
    if (sys.ps d).dependencies.any (fun dq => dq.2 = self) then
      match load w fuel d [] [] .force true false sys with
      | (sys1, some_e) =>
        match some_e with
        | .error e => (sys1, some e)
        | .ok _ => (sys1, none)
    else
      (sys, some (.inconsistentDep (w.conf self).name (w.conf d).name))
termination_by structural fuel _ _ _ => fuel

/-- Model of `Plugin._unload(conflict_strategy, _unload_dependents)`
(base.py lines 830-875): already-unloaded handling first, then the
reentrancy guard, then the dependents cascade (plugin errors wrapped in
`PluginUnloadError`), then the unload callable under the flag context, and
finally the instance reset to the `empty` sentinel.  `Plugin.unload` is
this with `_unload_dependents=True`. -/
def unload (w : World n) :
    Nat → Fin n → UnloadCS → Bool → Sys n → Sys n × Except Err Val
  | 0, _, _, _, sys => (sys, .error .fuelOut)
  | fuel + 1, p, cs, cascadeDependents, sys =>
    let conf := w.conf p
    let st := sys.ps p
    if st.inst = Val.vempty then
      match cs with
      | .ignore => (sys, .ok Val.vempty)
      | .error => (sys, .error (.alreadyUnloaded conf.name))
    else if st.midLoad then (sys, .error (.midLoadErr conf.name))
    else
      match
        (if cascadeDependents then
          match unloadDependentsList w fuel st.dependents sys with
          | (sys1, some e) =>
            (sys1, some (if e.isPluginError then Err.unloadFailed conf.name e else e))
          | (sys1, none) => (sys1, none)
        else (sys, none)) with
      | (sys1, some e) => (sys1, .error e)
      | (sys1, none) =>
        let st1 := sys1.ps p
        if st1.midLoad then (sys1, .error (.midLoadErr conf.name))
        else
          let sysA : Sys n :=
            { ps := update sys1.ps p { st1 with midLoad := true }
              trace := sys1.trace ++ [.unloadCall p st1.inst] }
          match invokeUnloadCallable w fuel p st1.inst sysA with
          | (sysB, .error e) => (clearFlag sysB p, .error e)
          | (sysB, .ok r) =>
            let sysC := clearFlag sysB p
            (setInst sysC p Val.vempty, .ok r)
termination_by structural fuel _ _ _ _ => fuel

/-- Model of `Plugin._unload_dependents` (base.py lines 650-655): unload
every dependent with `conflict_strategy="ignore"`, cascading in full. -/
def unloadDependentsList (w : World n) :
    Nat → List (Fin n) → Sys n → Sys n × Option Err
  | 0, _, sys => (sys, some .fuelOut)
  | _ + 1, [], sys => (sys, none)
  | fuel + 1, d :: ds, sys =>
    match unload w fuel d .ignore true sys with
    | (sys1, .error e) => (sys1, some e)
    | (sys1, .ok _) => unloadDependentsList w fuel ds sys1
termination_by structural fuel _ _ => fuel

/-- Invocation of the wrapped unload callable: the user's callable for a
plain plugin, `_group_unload` for a group. -/
def invokeUnloadCallable (w : World n) :
    Nat → Fin n → Val → Sys n → Sys n × Except Err Val
  | 0, _, _, sys => (sys, .error .fuelOut)
  | fuel + 1, p, v, sys =>
    match (w.conf p).kind with
    | .plain =>
      match (w.conf p).unloadFn v with
      | .ok r => (sys, .ok r)
      | .error () => (sys, .error (.userRaise (w.conf p).name))
    | .group mems => groupUnloadList w fuel mems.reverse [] sys
termination_by structural fuel _ _ _ => fuel

/-- Model of `PluginGroup._group_unload` with the default `void_args` hook
(group.py lines 121-159): unload the members in reverse list order, each
via `plugin._unload(_unload_dependents=False)` with the default `"ignore"`
conflict strategy, collecting the returned values. -/
def groupUnloadList (w : World n) :
    Nat → List (Fin n) → List Val → Sys n → Sys n × Except Err Val
  | 0, _, _, sys => (sys, .error .fuelOut)
  | _ + 1, [], acc, sys => (sys, .ok (Val.ofList acc))
  | fuel + 1, m :: ms, acc, sys =>
    match unload w fuel m .ignore false sys with
    | (sys1, .error e) => (sys1, .error e)
    | (sys1, .ok r) => groupUnloadList w fuel ms (acc ++ [r]) sys1
termination_by structural fuel _ _ _ => fuel

end

/-! ### Example worlds used for concrete evaluations -/

/-- Signature of `def f(x)`. -/
def sigX : Sig := ⟨["x"], false, false, 0⟩

/-- Signature of `def f(**kwargs)` (the `kwargs` name is iterated by
`inspect.signature`). -/
def sigKW : Sig := ⟨["kwargs"], false, true, 0⟩

/-- Signature of `def f(*args, **kwargs)`. -/
def sigVar : Sig := ⟨["args", "kwargs"], true, true, 0⟩

/-- Configuration of the example dependency `D`: `def D(x=4): return x`. -/
def confD : PConf 3 :=
  { name := "D"
    sig := sigX
    loadFn := fun a k => .ok (match a.head? with
      | some v => v
      | none => (match alookup k "x" with | some v => v | none => .vint 4))
    unloadFn := fun _ => .ok .vnone
    callbacks := []
    enforceType := false
    inferType := false
    kind := .plain }

/-- Configuration of an example dependent: `def P(**kwargs): return
kwargs["d"]`. -/
def confP (nm : String) : PConf 3 :=
  { name := nm
    sig := sigKW
    loadFn := fun _ k => .ok (match alookup k "d" with | some v => v | none => .vnone)
    unloadFn := fun _ => .ok .vnone
    callbacks := []
    enforceType := false
    inferType := false
    kind := .plain }

/-- Example world: dependency `D` (index 0) with two independent dependents
`P1` (index 1) and `P2` (index 2), each declaring the requirement
`(D, dest="d")`. -/
def exW3 : World 3 :=
  ⟨fun p => if p = 0 then confD else if p = 1 then confP "P1" else confP "P2"⟩

/-- Fresh initial state for `exW3`. -/
def exSys3 : Sys 3 :=
  ⟨fun p =>
    if p = 0 then PState.fresh 3 []
    else if p = 1 then PState.fresh 3 [("d", 0)]
    else PState.fresh 3 [("d", 0)], []⟩

/-- State after `P1.load()`: `D` loaded as a dependency with instance `4`,
`P1` loaded with instance `4`. -/
def exSys3a : Sys 3 := (load exW3 20 1 [] [] .replace true false exSys3).1

/-- State after `P2.load()` on top of `exSys3a`: all three plugins loaded,
`D.dependents = [P1, P2]`. -/
def exSys3b : Sys 3 := (load exW3 20 2 [] [] .replace true false exSys3a).1

/-- The cascading reload `D.load(5)` (default `conflict_strategy="replace"`)
executed on `exSys3b`. -/
def exCascade : Sys 3 × Except Err Val :=
  load exW3 20 0 [.vint 5] [] .replace true false exSys3b

/-- Cycle world for the circular-dependency witness: `A` (index 0) requires
`B` (index 1) and `B` requires `A`. -/
def wCyc : World 2 :=
  ⟨fun p =>
    if p = 0 then
      { name := "A", sig := sigVar
        loadFn := fun _ _ => .ok .vnone
        unloadFn := fun _ => .ok .vnone
        callbacks := [], enforceType := false, inferType := false
        kind := .plain }
    else
      { name := "B", sig := sigVar
        loadFn := fun _ _ => .ok .vnone
        unloadFn := fun _ => .ok .vnone
        callbacks := [], enforceType := false, inferType := false
        kind := .plain }⟩

/-- Fresh initial state for `wCyc`. -/
def sysCyc : Sys 2 :=
  ⟨fun p =>
    if p = 0 then PState.fresh 2 [("b", 1)] else PState.fresh 2 [("a", 0)], []⟩

/-- World with one plugin declared `type=int, enforce_type=True` whose
callable returns the string `"oops"`. -/
def confT : PConf 1 :=
  { name := "T"
    sig := sigVar
    loadFn := fun _ _ => .ok (.vstr "oops")
    unloadFn := fun _ => .ok .vnone
    callbacks := []
    enforceType := true
    inferType := false
    kind := .plain }

/-- The single-plugin world of `confT`. -/
def wT : World 1 := ⟨fun _ => confT⟩

/-- State of `wT` with the declared type `int` and nothing loaded. -/
def sysT : Sys 1 :=
  ⟨fun _ =>
    let b := PState.fresh 1 []
    { b with ty := some Ty.tyInt }, []⟩

/-- State of `wT` whose plugin has the reentrancy flag set while unloaded —
the state observed by a reentrant call issued from inside the plugin's own
load callable. -/
def sysTMid : Sys 1 :=
  ⟨fun _ =>
    let b := PState.fresh 1 []
    { b with midLoad := true }, []⟩

/-- State of `wT` whose plugin has the reentrancy flag set while loaded —
the state observed by a reentrant call issued from inside the plugin's own
unload callable. -/
def sysTMidLoaded : Sys 1 :=
  ⟨fun _ =>
    let b := PState.fresh 1 []
    { b with midLoad := true, inst := .vint 1 }, []⟩

/-- Member configuration for the group world: `def M(*args, **kwargs):
return v`. -/
def confMem (nm : String) (v : Val) : PConf 4 :=
  { name := nm
    sig := sigVar
    loadFn := fun _ _ => .ok v
    unloadFn := fun _ => .ok .vnone
    callbacks := []
    enforceType := false
    inferType := false
    kind := .plain }

/-- Group world: `G` (index 0) is a `PluginGroup` with members
`[M1, M2]` (indices 1, 2); `Q` (index 3) is an ordinary plugin requiring
`M1`.  The member load callables return `v1` and `v2`. -/
def c8w (v1 v2 : Val) : World 4 :=
  ⟨fun p =>
    if p = 0 then
      { name := "G", sig := sigVar
        loadFn := fun _ _ => .ok .vnone
        unloadFn := fun _ => .ok .vnone
        callbacks := [], enforceType := false, inferType := false
        kind := .group [1, 2] }
    else if p = 1 then confMem "M1" v1
    else if p = 2 then confMem "M2" v2
    else confMem "Q" (.vint 33)⟩

/-- Fresh state for the group world: group requirements `[M1, M2]` (as
created by the group's membership operations), all plugins unloaded. -/
def c8SysFresh : Sys 4 :=
  ⟨fun p =>
    if p = 0 then PState.fresh 4 [("M1", 1), ("M2", 2)]
    else if p = 3 then PState.fresh 4 [("m", 1)]
    else PState.fresh 4 [], []⟩

/-- Group-world state in which member `M1` is already loaded with instance
`99` (recorded empty load args) and `Q` is loaded as a dependent of `M1`;
`M2` and the group are unloaded. -/
def c8SysKeep : Sys 4 :=
  ⟨fun p =>
    if p = 0 then PState.fresh 4 [("M1", 1), ("M2", 2)]
    else if p = 3 then
      let b := PState.fresh 4 [("m", 1)]
      { b with inst := .vint 33, loadArgs := some [], loadKwargs := some [],
               dependencies := [("m", 1)] }
    else if p = 1 then
      let b := PState.fresh 4 []
      { b with dependents := [3], inst := .vint 99, loadArgs := some [],
               loadKwargs := some [] }
    else PState.fresh 4 [], []⟩

/-- The group load executed on `c8SysKeep`. -/
def c8Keep : Sys 4 × Except Err Val :=
  load (c8w (.vint 11) (.vint 22)) 12 0 [] [] .replace true false c8SysKeep

/-- The state `c8Keep` reaches, written out literally: the group is loaded
with instance `[99, 22]`, both members are loaded, and `Q` still holds its
instance `33`. -/
def c8SysLoaded : Sys 4 :=
  ⟨fun p =>
    if p = 0 then
      { requirements := [("M1", 1), ("M2", 2)],
        dependencies := [("M1", 1), ("M2", 2)], dependents := [],
        inst := Val.ofList [.vint 99, .vint 22], loadArgs := some [],
        loadKwargs := some [], midLoad := false, ty := none,
        isClassType := false }
    else if p = 1 then
      { requirements := [], dependencies := [], dependents := [3, 0],
        inst := .vint 99, loadArgs := some [], loadKwargs := some [],
        midLoad := false, ty := none, isClassType := false }
    else if p = 2 then
      { requirements := [], dependencies := [], dependents := [0],
        inst := .vint 22, loadArgs := some [], loadKwargs := some [],
        midLoad := false, ty := none, isClassType := false }
    else
      { requirements := [("m", 1)], dependencies := [("m", 1)],
        dependents := [], inst := .vint 33, loadArgs := some [],
        loadKwargs := some [], midLoad := false, ty := none,
        isClassType := false },
   [.loadCall 0 [] [], .loadCall 2 [] []]⟩

/-- The group unload executed on `c8SysLoaded`. -/
def c8Unload : Sys 4 × Except Err Val :=
  unload (c8w (.vint 11) (.vint 22)) 12 0 .ignore true c8SysLoaded

/-- Literal state of `exW3` with all three plugins loaded (each with empty
recorded positional arguments), the dependency edges populated and
`D.dependents = [P1, P2]` — the state reached by loading `P1` and then
`P2` from scratch. -/
def exSys3Loaded : Sys 3 :=
  ⟨fun p =>
    if p = 0 then
      { requirements := [], dependencies := [], dependents := [1, 2],
        inst := .vint 4, loadArgs := some [], loadKwargs := some [],
        midLoad := false, ty := none, isClassType := false }
    else if p = 1 then
      { requirements := [("d", 0)], dependencies := [("d", 0)],
        dependents := [], inst := .vint 4, loadArgs := some [],
        loadKwargs := some [("d", .vint 4)], midLoad := false, ty := none,
        isClassType := false }
    else
      { requirements := [("d", 0)], dependencies := [("d", 0)],
        dependents := [], inst := .vint 4, loadArgs := some [],
        loadKwargs := some [("d", .vint 4)], midLoad := false, ty := none,
        isClassType := false },
   []⟩

/-- The dependency-population stage of the repeated `P2.load()` on
`exSys3Loaded`. -/
def c3Pop : PMap 3 := (populateDependencies exW3 8 2 [] exSys3Loaded.ps).1

/-- The dependency-loading stage of the repeated `P2.load()`. -/
def c3Deps : Sys 3 × Except Err KW :=
  loadDependenciesList exW3 7 (depsToLoad (exW3.conf 2) c3Pop 2) [] []
    { exSys3Loaded with ps := c3Pop }

/-- The keyword map produced by the dependency-loading stage. -/
def c3DK : KW :=
  match c3Deps.2 with
  | .ok d => d
  | .error _ => []

/-- A non-empty requirement path `a → … → b` through the requirement map
`R` (one edge per declared requirement).  `ReqChain R p p` states that the
requirement graph contains a cycle through `p`. -/
inductive ReqChain (R : Fin n → List (String × Fin n)) : Fin n → Fin n → Prop where
  | edge {a b : Fin n} (dest : String) (hmem : (dest, b) ∈ R a) : ReqChain R a b
  | cons {a c b : Fin n} (dest : String) (hmem : (dest, c) ∈ R a)
      (tail : ReqChain R c b) : ReqChain R a b

/-- The requirement map of the cycle world `wCyc`: `A` requires `B` and `B`
requires `A`. -/
def cycR : Fin 2 → List (String × Fin 2) :=
  fun r => if r = 0 then [("b", 1)] else [("a", 0)]

end Pyplugin

deriving instance DecidableEq for Except

namespace Pyplugin

/-! ### Claim theorems -/

set_option maxHeartbeats 1600000 in
/-- C1.  The claim states that every plugin in the snapshot of `D`'s loaded
dependents is force-reloaded after `D`'s new instance is stored.  The code
does not do this: `_load_dependents` (base.py line 644) executes `return`
after reloading the first dependent, so later snapshotted dependents are
never reloaded.  This theorem evaluates the engine at the failing input: in
`exSys3b` the dependency `D` has two loaded dependents `P1` and `P2`, each
holding `D` in its dependencies map; `D.load(5)` then succeeds, reloads
`P1` (which observes the new instance `5`), but leaves `P2` entirely
unloaded — its stale instance was removed by the cascade unload and never
replaced, so `P2` does not observe `D`'s new instance. -/
theorem c1_cascade_reload_skips_second_dependent :
    isLoaded exSys3b 1 = true ∧ isLoaded exSys3b 2 = true ∧
    (exSys3b.ps 0).dependents = [1, 2] ∧
    (exSys3b.ps 1).dependencies = [("d", 0)] ∧
    (exSys3b.ps 2).dependencies = [("d", 0)] ∧
    exCascade.2 = .ok (.vint 5) ∧
    (exCascade.1.ps 0).inst = .vint 5 ∧
    (exCascade.1.ps 1).inst = .vint 5 ∧
    (exCascade.1.ps 2).inst = Val.vempty ∧
    isLoaded exCascade.1 2 = false := by
  simp [exCascade, exSys3b, exSys3a, exSys3, exW3, confD, confP, load,
    loadInvoke, invokeLoadCallable, groupLoadInvoke, groupLoadList,
    loadDependenciesList, loadDependentsList, unload, unloadDependentsList,
    invokeUnloadCallable, groupUnloadList, populateDependencies,
    populateReqList, populateOne, populateOneInsert, mergeStage, makeSafeArgs,
    msaStep, argsMatch, handleEnforceType, inferTyStep, clearFlag, setInst,
    sigOf, decodeLoadCS, decodeBool, depsToLoad, update, isLoadedPS, isLoaded,
    alookup, aset, aerase, ahas, kwSetdefault, kwSetDefaults, kwEq,
    Err.isPluginError, Err.isCircular, runtimeTy, Val.ofList, PState.fresh,
    sigX, sigKW, sigVar]

/-- C2.  The claim states that re-registering the *same* Plugin object under
a name it already occupies is a no-op success under every conflict
strategy, including `"error"`.  The source's same-object test
(base.py line 64) compares the stored `(plugin, kwargs)` *tuple* against
the plugin object with `is`, which can never hold, so the branch is dead
and the call raises `PluginRegisterError` under `"error"`.  This theorem
evaluates the model at the failing input (plugin id `7` already registered
under `"n"`, re-registered under `"n"` with `conflict_strategy="error"`)
and proves the identity test unsatisfiable for every entry. -/
theorem c2_register_same_plugin_error_conflict :
    registerFn [("n", ⟨7, false⟩)] (fun _ => false) 7 "n" .error false
      = .error (.registerErr "n") ∧
    ∀ (e : RegEntry) (pid : Nat), PyObj.entryPair e ≠ PyObj.pluginRef pid := by
  exact ⟨by decide, fun e pid h => by simp at h⟩

/-- C7 (counterexample).  The claim states that a reentrant `load()` or
`unload()` call on a Plugin whose reentrancy flag is set fails with
`PluginPartiallyLoadedError`.  In `sysTMid` the flag is set while the
instance is the `empty` sentinel — exactly the state a reentrant call
observes while the plugin's *load* callable is executing — yet
`unload(conflict_strategy="ignore")` returns the `empty` sentinel
successfully instead of raising: `_unload` (base.py lines 853-862) checks
`is_loaded()` before the reentrancy guard. -/
theorem c7_reentrant_unload_mid_load_not_rejected :
    (sysTMid.ps 0).midLoad = true ∧
    (unload wT 4 0 .ignore true sysTMid).2 = .ok Val.vempty ∧
    (unload wT 4 0 .ignore true sysTMid).2 ≠ .error (.midLoadErr "T") := by
  refine ⟨rfl, ?_, ?_⟩ <;>
    simp [unload, sysTMid, wT, confT, update, isLoadedPS, isLoaded,
      PState.fresh]

/-- C7 (amended).  For a Plugin whose reentrancy flag is set: a reentrant
`load()` always fails with `PluginPartiallyLoadedError`; a reentrant
`unload()` fails with `PluginPartiallyLoadedError` only when the Plugin is
loaded (i.e. mid-unload); when the flag is set but the instance is the
`empty` sentinel (mid-load), `unload` instead follows the already-unloaded
path: `"ignore"` returns the `empty` sentinel and `"error"` raises
`PluginAlreadyUnloadedError`. -/
theorem c7_reentrancy_guard (w : World n) (fuel : Nat) (p : Fin n)
    (sys : Sys n) (hflag : (sys.ps p).midLoad = true) :
    (∀ args kwargs cs dpa sa,
      load w (fuel + 1) p args kwargs cs dpa sa sys
        = (sys, .error (.midLoadErr (w.conf p).name))) ∧
    ((sys.ps p).inst ≠ Val.vempty → ∀ cs casc,
      unload w (fuel + 1) p cs casc sys
        = (sys, .error (.midLoadErr (w.conf p).name))) ∧
    ((sys.ps p).inst = Val.vempty → ∀ casc,
      unload w (fuel + 1) p .ignore casc sys = (sys, .ok Val.vempty) ∧
      unload w (fuel + 1) p .error casc sys
        = (sys, .error (.alreadyUnloaded (w.conf p).name))) := by
  refine ⟨?_, ?_, ?_⟩
  · intro args kwargs cs dpa sa
    simp [load, hflag]
  · intro hinst cs casc
    simp [unload, hflag, hinst]
  · intro hinst casc
    constructor <;> simp [unload, hinst]

/-- C7 (witness): the amended guard evaluated on concrete reentrant
states. -/
theorem c7_reentrancy_guard_witness :
    load wT 4 0 [] [] .replace true false sysTMid
      = (sysTMid, .error (.midLoadErr (wT.conf 0).name)) ∧
    unload wT 4 0 .ignore true sysTMid = (sysTMid, .ok Val.vempty) ∧
    unload wT 4 0 .error true sysTMid
      = (sysTMid, .error (.alreadyUnloaded (wT.conf 0).name)) ∧
    unload wT 4 0 .ignore true sysTMidLoaded
      = (sysTMidLoaded, .error (.midLoadErr (wT.conf 0).name)) := by
  have h1 := c7_reentrancy_guard wT 3 0 sysTMid rfl
  have h2 := c7_reentrancy_guard wT 3 0 sysTMidLoaded rfl
  exact ⟨h1.1 [] [] .replace true false, (h1.2.2 rfl true).1,
    (h1.2.2 rfl true).2, h2.2.1 (by decide) .ignore true⟩

set_option maxHeartbeats 1600000 in
/-- C8.  A `PluginGroup` with members `[M1, M2]`: loading the group loads
the members in list order with `conflict_strategy="keep_existing"` and
produces the instance `[M1.instance, M2.instance]`; unloading the group
unloads `M2` before `M1` (reverse member order) with the dependents
cascade suppressed at the member level.  Part one quantifies over the
member load results and shows the instance list and the member invocation
order from a fresh state; part two shows that an already-loaded `M1` is
kept (its callable is not re-invoked and its existing instance `99` enters
the group instance); part three shows reverse-order unloading (`M2`'s
unload callable before `M1`'s) while `Q`, a loaded dependent of `M1`,
survives the group unload untouched. -/
theorem c8_group_order_and_cascade_suppression :
    (∀ v1 v2 : Val,
      (load (c8w v1 v2) 12 0 [] [] .replace true false c8SysFresh).2
        = .ok (Val.ofList [v1, v2]) ∧
      ((load (c8w v1 v2) 12 0 [] [] .replace true false c8SysFresh).1.ps 0).inst
        = Val.ofList [v1, v2] ∧
      ((load (c8w v1 v2) 12 0 [] [] .replace true false c8SysFresh).1.ps 1).inst
        = v1 ∧
      ((load (c8w v1 v2) 12 0 [] [] .replace true false c8SysFresh).1.ps 2).inst
        = v2 ∧
      (load (c8w v1 v2) 12 0 [] [] .replace true false c8SysFresh).1.trace
        = [.loadCall 0 [] [], .loadCall 1 [] [], .loadCall 2 [] []]) ∧
    (c8Keep.2 = .ok (Val.ofList [.vint 99, .vint 22]) ∧
      c8Keep.1.trace = c8SysLoaded.trace ∧
      c8Keep.1.ps 0 = c8SysLoaded.ps 0 ∧ c8Keep.1.ps 1 = c8SysLoaded.ps 1 ∧
      c8Keep.1.ps 2 = c8SysLoaded.ps 2 ∧ c8Keep.1.ps 3 = c8SysLoaded.ps 3) ∧
    (c8Unload.2 = .ok (Val.ofList [.vnone, .vnone]) ∧
      c8Unload.1.trace = c8SysLoaded.trace ++
        [.unloadCall 0 (Val.ofList [.vint 99, .vint 22]),
         .unloadCall 2 (.vint 22), .unloadCall 1 (.vint 99)] ∧
      isLoaded c8Unload.1 3 = true ∧
      isLoaded c8Unload.1 1 = false ∧ isLoaded c8Unload.1 2 = false ∧
      isLoaded c8Unload.1 0 = false) := by
  refine ⟨fun v1 v2 => ?_, ?_, ?_⟩ <;>
    simp [c8Keep, c8Unload, c8SysFresh, c8SysKeep, c8SysLoaded, c8w, confMem, load,
      loadInvoke, invokeLoadCallable, groupLoadInvoke, groupLoadList,
      loadDependenciesList, loadDependentsList, unload, unloadDependentsList,
      invokeUnloadCallable, groupUnloadList, populateDependencies,
      populateReqList, populateOne, populateOneInsert, mergeStage,
      makeSafeArgs, msaStep, argsMatch, handleEnforceType, inferTyStep,
      clearFlag, setInst, sigOf, decodeLoadCS, decodeBool, depsToLoad, update,
      isLoadedPS, isLoaded, alookup, aset, aerase, ahas, kwSetdefault,
      kwSetDefaults, kwEq, Err.isPluginError, Err.isCircular, runtimeTy,
      Val.ofList, PState.fresh, sigVar]

/-- C9.  A registry name whose current registration carries the `transient`
metadata flag is silently overwritten by any later `register` call under
that name: the conflict block of `register` (base.py line 63) is skipped
entirely, so the call succeeds and stores the incoming plugin even under
`conflict_strategy="error"` with a different plugin object. -/
theorem c9_transient_registration_overwrites (reg : Registry)
    (loaded : Nat → Bool) (pid : Nat) (name : String) (cs : RegCS) (t : Bool)
    (entry : RegEntry) (hfound : alookup reg name = some entry)
    (htrans : entry.transient = true) :
    registerFn reg loaded pid name cs t = .ok (aset reg name ⟨pid, t⟩, pid) := by
  unfold registerFn
  rw [hfound]
  simp [htrans]

/-- C9 (witness): plugin id `9` silently replaces the transient registration
of plugin id `7` under `conflict_strategy="error"`. -/
theorem c9_transient_registration_overwrites_witness :
    registerFn [("n", ⟨7, true⟩)] (fun _ => false) 9 "n" .error false
      = .ok ([("n", ⟨9, false⟩)], 9) := by
  have h := c9_transient_registration_overwrites [("n", ⟨7, true⟩)]
    (fun _ => false) 9 "n" .error false ⟨7, true⟩ (by decide) (by decide)
  simpa [aset] using h

/-- C10.  `add_requirement` on a loaded Plugin (instance not the `empty`
sentinel) raises `PluginRequirementError` before any conflict handling,
regardless of the requested conflict strategy, and leaves the state — in
particular the requirements map — unchanged. -/
theorem c10_add_requirement_rejected_when_loaded {n : Nat} (st : PState n)
    (dest : String) (target : Fin n) (cs : RegCS)
    (h : st.inst ≠ Val.vempty) :
    addRequirement st dest target cs = (st, .error (.requirementErr dest)) := by
  unfold addRequirement
  rw [if_pos h]

/-- C10 (witness): a loaded single-plugin state rejects a new requirement
under each conflict strategy. -/
theorem c10_add_requirement_rejected_when_loaded_witness :
    addRequirement ⟨[], [], [], .vint 1, some [], some [], false, none, false⟩
        "d" (0 : Fin 1) .replace
      = (⟨[], [], [], .vint 1, some [], some [], false, none, false⟩,
         .error (.requirementErr "d")) := by
  exact c10_add_requirement_rejected_when_loaded _ "d" 0 .replace (by decide)

/-- C3.  A second `load()` call on a loaded Plugin whose final merged
arguments equal the recorded `load_args` / `load_kwargs`, with any conflict
strategy other than `"force"`, returns the cached instance: the call stops
at the conflict check (base.py lines 790-796), so the state it returns is
exactly the state after dependency loading — in particular the plugin's
load callable contributes no further invocation event. -/
theorem c3_idempotent_load {n : Nat} (w : World n) (fuel : Nat) (p : Fin n)
    (args : List Val) (kwargs : KW) (cs : LoadCS) (dpa sa : Bool)
    (sys : Sys n) (ps1 : PMap n) (sys2 : Sys n) (dk : KW)
    (hflag : (sys.ps p).midLoad = false)
    (hpop : populateDependencies w (fuel + 1) p [] sys.ps = (ps1, none))
    (hdeps : loadDependenciesList w fuel (depsToLoad (w.conf p) ps1 p) kwargs []
        { sys with ps := ps1 } = (sys2, .ok dk))
    (hloaded : isLoaded sys2 p = true)
    (hmatch : argsMatch (sys2.ps p)
        (mergeStage (sigOf (w.conf p)) args kwargs dpa sa (sys2.ps p) dk).1
        (mergeStage (sigOf (w.conf p)) args kwargs dpa sa (sys2.ps p) dk).2
        = true)
    (hcs : cs ≠ .force) :
    load w (fuel + 1) p args kwargs cs dpa sa sys = (sys2, .ok (sys2.ps p).inst) := by
  have hboolcs : decide (cs = LoadCS.force) = false := decide_eq_false hcs
  simp only [load, hflag, hpop, hdeps, hloaded, hmatch, hboolcs, Bool.false_eq_true,
    if_false, Bool.not_false, Bool.and_true, if_true]

/-- C3 (witness): the repeated `P2.load()` on the fully loaded literal state
returns the cached instance with the state left at the dependency-loading
stage. -/
theorem c3_idempotent_load_witness :
    load exW3 8 2 [] [] .replace true false exSys3Loaded
      = (c3Deps.1, .ok ((c3Deps.1.ps 2).inst)) := by
  exact c3_idempotent_load exW3 7 2 [] [] .replace true false exSys3Loaded
    c3Pop c3Deps.1 c3DK rfl rfl rfl rfl rfl (by decide)

/-- A plugin that does not report loaded holds the `empty` sentinel. -/
theorem inst_of_not_isLoaded {n : Nat} (sys : Sys n) (p : Fin n)
    (h : isLoaded sys p = false) : (sys.ps p).inst = Val.vempty := by
  simpa [isLoaded, isLoadedPS, bne_eq_false_iff_eq] using h

/-- `_handle_enforce_type` reads only the type metadata of the state. -/
theorem handleEnforceType_congr {n : Nat} (conf : PConf n) (st st' : PState n)
    (v : Val) (hty : st.ty = st'.ty) (hc : st.isClassType = st'.isClassType) :
    handleEnforceType conf st v = handleEnforceType conf st' v := by
  unfold handleEnforceType
  rw [hty, hc]

/-- The only error `_handle_enforce_type` raises is the type-mismatch error
carrying the plugin's name. -/
theorem handleEnforceType_typeErr {n : Nat} (conf : PConf n) (st : PState n)
    (v : Val) (e : Err) (h : handleEnforceType conf st v = some e) :
    e = .typeErr conf.name := by
  unfold handleEnforceType at h
  split at h
  · split at h
    · split at h
      · exact (Option.some.injEq _ _ ▸ h).symm
      · split at h
        · exact absurd h (by simp)
        · exact (Option.some.injEq _ _ ▸ h).symm
    · exact absurd h (by simp)
  · exact absurd h (by simp)

/-- C6.  A failing load attempt — the load callable raising, or
`enforce_type` set and the result mismatching the declared type — stores no
instance: the Plugin remains unloaded (`is_loaded()` false) and the
partially-loaded flag is cleared despite the exception, because
`self.instance` is only assigned after both the callable and the type check
succeed, and `_partial_load_context` clears the flag in its `finally`
clause. -/
theorem c6_failed_load_leaves_unloaded {n : Nat} (w : World n) (fuel : Nat)
    (p : Fin n) (args : List Val) (kwargs : KW) (cs : LoadCS) (dpa sa : Bool)
    (sys : Sys n) (ps1 : PMap n) (sys2 : Sys n) (dk : KW)
    (hflag : (sys.ps p).midLoad = false)
    (hpop : populateDependencies w (fuel + 3) p [] sys.ps = (ps1, none))
    (hdeps : loadDependenciesList w (fuel + 2)
        (depsToLoad (w.conf p) ps1 p) kwargs [] { sys with ps := ps1 }
        = (sys2, .ok dk))
    (hnl : isLoaded sys2 p = false)
    (hflag2 : (sys2.ps p).midLoad = false)
    (hplain : (w.conf p).kind = PKind.plain)
    (hfail :
      (w.conf p).loadFn
          (mergeStage (sigOf (w.conf p)) args kwargs dpa sa (sys2.ps p) dk).1
          (mergeStage (sigOf (w.conf p)) args kwargs dpa sa (sys2.ps p) dk).2
        = .error () ∨
      (∃ v e0,
        (w.conf p).loadFn
            (mergeStage (sigOf (w.conf p)) args kwargs dpa sa (sys2.ps p) dk).1
            (mergeStage (sigOf (w.conf p)) args kwargs dpa sa (sys2.ps p) dk).2
          = .ok v ∧
        handleEnforceType (w.conf p) (sys2.ps p)
            ((w.conf p).callbacks.foldl (fun acc cb => cb acc) v) = some e0)) :
    ∃ sysF e,
      load w (fuel + 3) p args kwargs cs dpa sa sys = (sysF, .error e) ∧
      (sysF.ps p).inst = Val.vempty ∧
      (sysF.ps p).midLoad = false ∧
      (e = .userRaise (w.conf p).name ∨ e = .typeErr (w.conf p).name) := by
  have hvempty : (sys2.ps p).inst = Val.vempty := inst_of_not_isLoaded sys2 p hnl
  simp only [load, hflag, hpop, hdeps, hnl, Bool.false_eq_true, if_false,
    loadInvoke, invokeLoadCallable, hplain]
  simp only [hflag2, Bool.false_eq_true, if_false]
  rcases hfail with herr | ⟨v, e0, hok, henf⟩
  · simp only [herr]
    refine ⟨_, _, rfl, ?_, ?_, Or.inl rfl⟩
    · simp [clearFlag, update, hvempty]
    · simp [clearFlag, update]
  · simp only [hok]
    rw [handleEnforceType_congr (w.conf p) _ (sys2.ps p) _
      (by simp [clearFlag, update]) (by simp [clearFlag, update]), henf]
    refine ⟨_, _, rfl, ?_, ?_,
      Or.inr (handleEnforceType_typeErr _ _ _ _ henf)⟩
    · simp [clearFlag, update, hvempty]
    · simp [clearFlag, update]

/-- C6 (witness): the `enforce_type`d plugin of `wT`, declared `type=int`,
whose callable returns `"oops"`, fails to load and remains unloaded with
the flag cleared. -/
theorem c6_failed_load_leaves_unloaded_witness :
    ∃ sysF e,
      load wT 4 0 [] [] .replace true false sysT = (sysF, .error e) ∧
      (sysF.ps 0).inst = Val.vempty ∧
      (sysF.ps 0).midLoad = false ∧
      (e = .userRaise (wT.conf 0).name ∨ e = .typeErr (wT.conf 0).name) := by
  exact c6_failed_load_leaves_unloaded wT 1 0 [] [] .replace true false sysT
    (populateDependencies wT 4 0 [] sysT.ps).1
    (loadDependenciesList wT 3
      (depsToLoad (wT.conf 0) (populateDependencies wT 4 0 [] sysT.ps).1 0)
      [] [] { sysT with ps := (populateDependencies wT 4 0 [] sysT.ps).1 }).1
    [] rfl rfl rfl rfl rfl rfl
    (Or.inr ⟨.vstr "oops", .typeErr "T", rfl, rfl⟩)

/-- Unloading an already-unloaded plugin under `"ignore"` is a no-op
returning the `empty` sentinel. -/
theorem unload_not_loaded {n : Nat} (w : World n) (fuel : Nat) (q : Fin n)
    (casc : Bool) (sys : Sys n) (h : (sys.ps q).inst = Val.vempty) :
    unload w (fuel + 1) q .ignore casc sys = (sys, .ok Val.vempty) := by
  simp [unload, h]

/-- Unloading a loaded plain plugin with no dependents and a succeeding
unload callable: the callable is invoked with the current instance (one
trace event), the instance is reset to the `empty` sentinel, and no other
plugin's state changes. -/
theorem unload_benign_loaded {n : Nat} (w : World n) (fuel : Nat) (q : Fin n)
    (sys : Sys n) (r : Val)
    (hload : (sys.ps q).inst ≠ Val.vempty)
    (hflag : (sys.ps q).midLoad = false)
    (hdeps : (sys.ps q).dependents = [])
    (hkind : (w.conf q).kind = PKind.plain)
    (hok : (w.conf q).unloadFn ((sys.ps q).inst) = .ok r) :
    unload w (fuel + 2) q .ignore true sys =
      ({ ps := update sys.ps q { sys.ps q with inst := Val.vempty },
         trace := sys.trace ++ [.unloadCall q ((sys.ps q).inst)] }, .ok r) := by
  simp only [unload, hload, hdeps, hflag, unloadDependentsList,
    invokeUnloadCallable, hkind, hok, Bool.false_eq_true, if_false, if_true,
    clearFlag, setInst, update]
  refine congrArg₂ Prod.mk ?_ rfl
  refine congrArg₂ Sys.mk ?_ rfl
  funext x
  by_cases hx : x = q
  · subst hx
    simp [update, hflag]
  · simp [update, hx]

/-- Cascading `_unload_dependents` over a duplicate-free list of benign
dependents (no dependents of their own, not mid-call, plain, with total
unload callables): it succeeds, unloads exactly the listed plugins, logs an
unload event for each one that was loaded, and leaves every other plugin's
state untouched. -/
theorem unloadDependentsList_benign {n : Nat} (w : World n) (D : Fin n) :
    ∀ (ds : List (Fin n)) (fuel : Nat) (sys : Sys n),
      ds.Nodup → D ∉ ds →
      (∀ q ∈ ds, (sys.ps q).dependents = [] ∧ (sys.ps q).midLoad = false ∧
        (w.conf q).kind = PKind.plain ∧
        ∀ v, ∃ r, (w.conf q).unloadFn v = .ok r) →
      ds.length + 2 ≤ fuel →
      ∃ t sysF,
        unloadDependentsList w fuel ds sys = (sysF, none) ∧
        sysF.trace = sys.trace ++ t ∧
        (∀ q ∈ ds, (sysF.ps q).inst = Val.vempty) ∧
        (∀ x : Fin n, x ∉ ds → sysF.ps x = sys.ps x) ∧
        (∀ q ∈ ds, (sys.ps q).inst ≠ Val.vempty →
          Ev.unloadCall q ((sys.ps q).inst) ∈ t) := by
  intro ds
  induction ds with
  | nil =>
    intro fuel sys _ _ _ hfuel
    obtain ⟨f, rfl⟩ : ∃ f, fuel = f + 1 := ⟨fuel - 1, by omega⟩
    exact ⟨[], sys, by simp [unloadDependentsList], by simp, by simp,
      fun x _ => rfl, by simp⟩
  | cons d rest ih =>
    intro fuel sys hnd hD hq hfuel
    obtain ⟨f, rfl⟩ : ∃ f, fuel = f + 1 := ⟨fuel - 1, by omega⟩
    have hdnotrest : d ∉ rest := (List.nodup_cons.mp hnd).1
    have hndrest : rest.Nodup := (List.nodup_cons.mp hnd).2
    have hDrest : D ∉ rest := fun h => hD (List.mem_cons_of_mem d h)
    have hqd := hq d (List.mem_cons_self d rest)
    by_cases hl : (sys.ps d).inst = Val.vempty
    · obtain ⟨g, rfl⟩ : ∃ g, f = g + 1 :=
        ⟨f - 1, by simp only [List.length_cons] at hfuel; omega⟩
      obtain ⟨t, sysF, hrun, htr, hinst, hout, hev⟩ := ih (g + 1) sys hndrest
        hDrest (fun q hqm => hq q (List.mem_cons_of_mem d hqm))
        (by simp only [List.length_cons] at hfuel; omega)
      refine ⟨t, sysF, ?_, htr, ?_, ?_, ?_⟩
      · simp only [unloadDependentsList, unload_not_loaded w g d true sys hl]
        exact hrun
      · intro q hqm
        rcases List.mem_cons.mp hqm with rfl | hqr
        · rw [hout q hdnotrest]
          exact hl
        · exact hinst q hqr
      · intro x hx
        exact hout x (fun h => hx (List.mem_cons_of_mem d h))
      · intro q hqm hqload
        rcases List.mem_cons.mp hqm with rfl | hqr
        · exact absurd hl hqload
        · exact hev q hqr hqload
    · obtain ⟨r, hr⟩ := hqd.2.2.2 ((sys.ps d).inst)
      obtain ⟨g, rfl⟩ : ∃ g, f = g + 2 :=
        ⟨f - 2, by simp only [List.length_cons] at hfuel; omega⟩
      have hstep := unload_benign_loaded w g d sys r hl hqd.2.1 hqd.1
        hqd.2.2.1 hr
      set sysd : Sys n :=
        { ps := update sys.ps d { sys.ps d with inst := Val.vempty },
          trace := sys.trace ++ [.unloadCall d ((sys.ps d).inst)] } with hsysd
      have hsame : ∀ x : Fin n, x ≠ d → sysd.ps x = sys.ps x := by
        intro x hx
        simp [hsysd, update, hx]
      obtain ⟨t, sysF, hrun, htr, hinst, hout, hev⟩ := ih (g + 2) sysd hndrest
        hDrest
        (fun q hqm => by
          rw [hsame q (fun h => hdnotrest (h ▸ hqm))]
          exact hq q (List.mem_cons_of_mem d hqm))
        (by simp only [List.length_cons] at hfuel; omega)
      refine ⟨.unloadCall d ((sys.ps d).inst) :: t, sysF, ?_, ?_, ?_, ?_, ?_⟩
      · simp only [unloadDependentsList, hstep]
        exact hrun
      · rw [htr]
        simp [hsysd]
      · intro q hqm
        rcases List.mem_cons.mp hqm with rfl | hqr
        · rw [hout q hdnotrest]
          simp [hsysd, update]
        · exact hinst q hqr
      · intro x hx
        rw [hout x (fun h => hx (List.mem_cons_of_mem d h))]
        exact hsame x (fun h => hx (h ▸ List.mem_cons_self d rest))
      · intro q hqm hqload
        rcases List.mem_cons.mp hqm with rfl | hqr
        · exact List.mem_cons_self _ _
        · refine List.mem_cons_of_mem _ ?_
          have := hev q hqr
          rw [hsame q (fun h => hdnotrest (h ▸ hqr))] at this
          exact this hqload

/-- C5.  `D.unload()` on a loaded Plugin `D` with a loaded dependent `P`:
every entry of `D.dependents` is unloaded before `D`'s own unload callable
runs — the trace records `P`'s unload-callable invocation strictly before
`D`'s, which is the final event — and afterwards both `P.is_loaded()` and
`D.is_loaded()` are false (as is every other dependent's).  The dependents
are assumed benign: duplicate-free, not containing `D` itself, each with no
dependents of its own, not mid-call, plain, and with a total unload
callable, which is the configuration the source's cascade produces. -/
theorem c5_cascade_unload {n : Nat} (w : World n) (fuel : Nat) (D P : Fin n)
    (cs : UnloadCS) (sys : Sys n) (ds : List (Fin n)) (rD : Val)
    (hds : (sys.ps D).dependents = ds)
    (hP : P ∈ ds)
    (hnodup : ds.Nodup)
    (hDnot : D ∉ ds)
    (hDloaded : (sys.ps D).inst ≠ Val.vempty)
    (hDflag : (sys.ps D).midLoad = false)
    (hDkind : (w.conf D).kind = PKind.plain)
    (hPloaded : (sys.ps P).inst ≠ Val.vempty)
    (hDok : (w.conf D).unloadFn ((sys.ps D).inst) = .ok rD)
    (hq : ∀ q ∈ ds, (sys.ps q).dependents = [] ∧ (sys.ps q).midLoad = false ∧
      (w.conf q).kind = PKind.plain ∧ ∀ v, ∃ r, (w.conf q).unloadFn v = .ok r)
    (hfuel : ds.length ≤ fuel) :
    ∃ t sysF,
      unload w (fuel + 3) D cs true sys = (sysF, .ok rD) ∧
      sysF.trace = sys.trace ++ t ++ [.unloadCall D ((sys.ps D).inst)] ∧
      Ev.unloadCall P ((sys.ps P).inst) ∈ t ∧
      (∀ q ∈ ds, (sysF.ps q).inst = Val.vempty) ∧
      (sysF.ps D).inst = Val.vempty := by
  obtain ⟨t, sysMid, hrun, htr, hinst, hout, hev⟩ :=
    unloadDependentsList_benign w D ds (fuel + 2) sys hnodup hDnot hq (by omega)
  have hMidD : sysMid.ps D = sys.ps D := hout D hDnot
  have hkey : unload w (fuel + 3) D cs true sys
      = ({ ps := update sysMid.ps D { sys.ps D with inst := Val.vempty },
           trace := sysMid.trace ++ [.unloadCall D ((sys.ps D).inst)] },
         .ok rD) := by
    simp only [unload, hDloaded, hDflag, hds, hrun, hMidD,
      invokeUnloadCallable, hDkind, hDok, Bool.false_eq_true, if_false,
      if_true, clearFlag, setInst]
    refine congrArg₂ Prod.mk ?_ rfl
    refine congrArg₂ Sys.mk ?_ rfl
    funext x
    by_cases hx : x = D
    · subst hx
      simp [update, hDflag]
    · simp [update, hx]
  refine ⟨t, _, hkey, ?_, hev P hP hPloaded, ?_, ?_⟩
  · simp [htr]
  · intro q hqm
    have hqD : ¬q = D := fun h => hDnot (h ▸ hqm)
    simp only [update]
    rw [if_neg hqD]
    exact hinst q hqm
  · simp [update]

/-- C5 (witness): unloading `D` in the fully loaded three-plugin literal
state unloads its dependents `P1` and `P2` first (their unload events
precede `D`'s, which is last) and leaves all three unloaded. -/
theorem c5_cascade_unload_witness :
    ∃ t sysF,
      unload exW3 5 0 .ignore true exSys3Loaded = (sysF, .ok .vnone) ∧
      sysF.trace = exSys3Loaded.trace ++ t ++
        [.unloadCall 0 ((exSys3Loaded.ps 0).inst)] ∧
      Ev.unloadCall 1 ((exSys3Loaded.ps 1).inst) ∈ t ∧
      (∀ q ∈ ([1, 2] : List (Fin 3)), (sysF.ps q).inst = Val.vempty) ∧
      (sysF.ps 0).inst = Val.vempty := by
  exact c5_cascade_unload exW3 2 0 1 .ignore exSys3Loaded [1, 2] .vnone rfl
    (by decide) (by decide) (by decide) (by decide) rfl rfl (by decide) rfl
    (fun q hq => by
      rcases List.mem_cons.mp hq with rfl | hq2
      · exact ⟨rfl, rfl, rfl, fun v => ⟨.vnone, rfl⟩⟩
      · rcases List.mem_cons.mp hq2 with rfl | h3
        · exact ⟨rfl, rfl, rfl, fun v => ⟨.vnone, rfl⟩⟩
        · exact absurd h3 (by simp))
    (by decide)

/-- A pointwise update that keeps the requirements field keeps every
plugin's requirements. -/
theorem update_reqs {n : Nat} (ps : PMap n) (p : Fin n) (st : PState n)
    (x : Fin n) (h : st.requirements = (ps p).requirements) :
    ((update ps p st) x).requirements = (ps x).requirements := by
  by_cases hx : x = p
  · subst hx
    simp [update, h]
  · simp [update, hx]

/-- `_populate_one_dependency` never touches any plugin's requirements. -/
theorem populateOneInsert_reqs {n : Nat} (ps : PMap n) (s d : Fin n)
    (dest : String) (x : Fin n) :
    ((populateOneInsert ps s d dest) x).requirements = (ps x).requirements := by
  simp only [populateOneInsert]
  split
  · exact update_reqs ps s _ x rfl
  · refine Eq.trans (update_reqs _ _ _ x ?_) (update_reqs _ _ _ x ?_)
    · rfl
    · rfl

/-- `_populate_one_dependency` with any conflict strategy preserves every
plugin's requirements. -/
theorem populateOne_reqs {n : Nat} (ps : PMap n) (s d : Fin n) (dest : String)
    (cs : RegCS) (x : Fin n) :
    (((populateOne ps s d dest cs).1) x).requirements = (ps x).requirements := by
  unfold populateOne
  split
  · split
    · split
      · rw [populateOneInsert_reqs]
        by_cases hxs : x = s <;> simp [update, hxs]
      · rfl
      · rfl
    · exact populateOneInsert_reqs ps s d dest x
  · exact populateOneInsert_reqs ps s d dest x

/-- `_populate_one_dependency` with the `"replace"` strategy (the one the
population loop uses) never raises. -/
theorem populateOne_replace_none {n : Nat} (ps : PMap n) (s d : Fin n)
    (dest : String) :
    (populateOne ps s d dest .replace).2 = none := by
  unfold populateOne
  split
  · split
    · rfl
    · rfl
  · rfl

/-- The only errors `_populate_dependencies` can raise are the fuel
artifact and `CircularDependencyError`. -/
theorem populate_err {n : Nat} (w : World n) :
    ∀ fuel : Nat,
      (∀ (p : Fin n) (seen : List (Fin n)) (ps : PMap n) (e : Err),
        (populateDependencies w fuel p seen ps).2 = some e →
        e = .fuelOut ∨ ∃ path, e = .circular path) ∧
      (∀ (p : Fin n) (l : List (String × Fin n)) (seen : List (Fin n))
          (ps : PMap n) (e : Err),
        (populateReqList w fuel p l seen ps).2 = some e →
        e = .fuelOut ∨ ∃ path, e = .circular path) := by
  intro fuel
  induction fuel with
  | zero =>
    constructor
    · intro p seen ps e h
      simp only [populateDependencies] at h
      exact Or.inl (Option.some.inj h).symm
    · intro p l seen ps e h
      simp only [populateReqList] at h
      exact Or.inl (Option.some.inj h).symm
  | succ f ih =>
    constructor
    · intro p seen ps e h
      simp only [populateDependencies] at h
      split at h
      · exact Or.inr ⟨_, (Option.some.inj h).symm⟩
      · exact ih.2 _ _ _ _ _ h
    · intro p l seen ps e h
      match l with
      | [] =>
        simp only [populateReqList] at h
        cases h
      | (dest, q) :: rest =>
        simp only [populateReqList] at h
        rcases hpd : populateDependencies w f q seen ps with ⟨ps1, oe⟩
        rw [hpd] at h
        match oe with
        | some e1 =>
          simp only at h
          exact ih.1 q seen ps e ((Option.some.inj h) ▸ hpd ▸ rfl)
        | none =>
          simp only at h
          rcases hpo : populateOne ps1 p q dest .replace with ⟨ps2, oe2⟩
          rw [hpo] at h
          match oe2 with
          | some e2 =>
            have := populateOne_replace_none ps1 p q dest
            rw [hpo] at this
            cases this
          | none =>
            simp only at h
            exact ih.2 _ _ _ _ _ h

/-- Dependency population never touches any plugin's requirements. -/
theorem populate_reqs {n : Nat} (w : World n) :
    ∀ fuel : Nat,
      (∀ (p : Fin n) (seen : List (Fin n)) (ps : PMap n) (x : Fin n),
        (((populateDependencies w fuel p seen ps).1) x).requirements
          = (ps x).requirements) ∧
      (∀ (p : Fin n) (l : List (String × Fin n)) (seen : List (Fin n))
          (ps : PMap n) (x : Fin n),
        (((populateReqList w fuel p l seen ps).1) x).requirements
          = (ps x).requirements) := by
  intro fuel
  induction fuel with
  | zero =>
    constructor
    · intro p seen ps x
      rfl
    · intro p l seen ps x
      rfl
  | succ f ih =>
    constructor
    · intro p seen ps x
      simp only [populateDependencies]
      split
      · by_cases hx : x = p <;> simp [update, hx]
      · rw [ih.2]
        by_cases hx : x = p <;> simp [update, hx]
    · intro p l seen ps x
      match l with
      | [] => rfl
      | (dest, q) :: rest =>
        simp only [populateReqList]
        rcases hpd : populateDependencies w f q seen ps with ⟨ps1, oe⟩
        have hps1 : ∀ y, (ps1 y).requirements = (ps y).requirements := by
          intro y
          have := (ih.1) q seen ps y
          rw [hpd] at this
          exact this
        match oe with
        | some e1 => exact hps1 x
        | none =>
          rcases hpo : populateOne ps1 p q dest .replace with ⟨ps2, oe2⟩
          have hps2 : ∀ y, (ps2 y).requirements = (ps1 y).requirements := by
            intro y
            have := populateOne_reqs ps1 p q dest .replace y
            rw [hpo] at this
            exact this
          match oe2 with
          | some e2 =>
            have := populateOne_replace_none ps1 p q dest
            rw [hpo] at this
            cases this
          | none =>
            show ((match populateOne ps1 p q dest RegCS.replace with
              | (ps1, some e) => (ps1, some e)
              | (ps2, none) => populateReqList w f p rest seen ps2).1
                x).requirements = (ps x).requirements
            rw [hpo]
            exact (ih.2 p rest seen ps2 x).trans ((hps2 x).trans (hps1 x))

/-- If the requirement loop succeeds, the population of every listed
requirement target succeeded, from some intermediate state with the same
requirements. -/
theorem populateReqList_member_success {n : Nat} (w : World n) :
    ∀ (l : List (String × Fin n)) (fuel : Nat) (p : Fin n)
      (seen : List (Fin n)) (ps : PMap n),
      (populateReqList w fuel p l seen ps).2 = none →
      ∀ dest q, (dest, q) ∈ l →
      ∃ f2 ps2, (populateDependencies w f2 q seen ps2).2 = none ∧
        ∀ r, (ps2 r).requirements = (ps r).requirements := by
  intro l
  induction l with
  | nil =>
    intro fuel p seen ps _ dest q hmem
    cases hmem
  | cons hd rest ih =>
    intro fuel p seen ps h dest q hmem
    match fuel with
    | 0 =>
      simp only [populateReqList] at h
      cases h
    | f + 1 =>
      obtain ⟨dh, qh⟩ := hd
      simp only [populateReqList] at h
      rcases hpd : populateDependencies w f qh seen ps with ⟨ps1, oe⟩
      rw [hpd] at h
      match oe with
      | some e1 =>
        simp only at h
        cases h
      | none =>
        simp only at h
        rcases hpo : populateOne ps1 p qh dh .replace with ⟨ps2, oe2⟩
        rw [hpo] at h
        match oe2 with
        | some e2 =>
          have := populateOne_replace_none ps1 p qh dh
          rw [hpo] at this
          cases this
        | none =>
          simp only at h
          rcases List.mem_cons.mp hmem with heq | hrest
          · obtain ⟨h1, h2⟩ := Prod.mk.injEq .. ▸ heq
            subst h1
            subst h2
            exact ⟨f, ps, hpd ▸ rfl, fun r => rfl⟩
          · obtain ⟨f2, ps3, hsucc, hreq⟩ := ih f p seen ps2 h dest q hrest
            refine ⟨f2, ps3, hsucc, fun r => ?_⟩
            rw [hreq r]
            have hp2 := populateOne_reqs ps1 p qh dh .replace r
            rw [hpo] at hp2
            rw [hp2]
            have hp1 := (populate_reqs w f).1 qh seen ps r
            rw [hpd] at hp1
            exact hp1

/-- Along any requirement chain out of a successfully populated plugin,
some successful population call was made on the chain's endpoint with a
visited path extending `seen ++ [start]`. -/
theorem populate_chain_success {n : Nat} (w : World n)
    (R : Fin n → List (String × Fin n)) :
    ∀ {a b : Fin n}, ReqChain R a b →
    ∀ (f : Nat) (seen : List (Fin n)) (ps : PMap n),
      (∀ r, (ps r).requirements = R r) →
      (populateDependencies w f a seen ps).2 = none →
      ∃ f2 seen2 ps2, (seen ++ [a]) ⊆ seen2 ∧
        (∀ r, (ps2 r).requirements = R r) ∧
        (populateDependencies w f2 b seen2 ps2).2 = none := by
  intro a b hchain
  induction hchain with
  | @edge a b dest hmem =>
    intro f seen ps hreqs hsucc
    match f with
    | 0 => cases hsucc
    | f + 1 =>
      simp only [populateDependencies] at hsucc
      split at hsucc
      · cases hsucc
      · have hru : ((update ps a { ps a with dependencies := [] }) a).requirements
            = R a := by
          simp [update, hreqs]
        rw [hru] at hsucc
        obtain ⟨f2, ps2, hs2, hr2⟩ := populateReqList_member_success w (R a) f a
          (seen ++ [a]) (update ps a { ps a with dependencies := [] }) hsucc
          dest b hmem
        refine ⟨f2, seen ++ [a], ps2, fun x hx => hx, fun r => ?_, hs2⟩
        rw [hr2 r]
        by_cases hr : r = a <;> simp [update, hr, hreqs]
  | @cons a c b dest hmem tail ih =>
    intro f seen ps hreqs hsucc
    match f with
    | 0 => cases hsucc
    | f + 1 =>
      simp only [populateDependencies] at hsucc
      split at hsucc
      · cases hsucc
      · have hru : ((update ps a { ps a with dependencies := [] }) a).requirements
            = R a := by
          simp [update, hreqs]
        rw [hru] at hsucc
        obtain ⟨f2, ps2, hs2, hr2⟩ := populateReqList_member_success w (R a) f a
          (seen ++ [a]) (update ps a { ps a with dependencies := [] }) hsucc
          dest c hmem
        have hreqs2 : ∀ r, (ps2 r).requirements = R r := by
          intro r
          rw [hr2 r]
          by_cases hr : r = a <;> simp [update, hr, hreqs]
        obtain ⟨f3, seen3, ps3, hsub, hreqs3, hs3⟩ := ih f2 (seen ++ [a]) ps2
          hreqs2 hs2
        refine ⟨f3, seen3, ps3, fun x hx => ?_, hreqs3, hs3⟩
        exact hsub (List.mem_append_left _ hx)

/-- With a requirement cycle through `p`, `_populate_dependencies` can
never succeed: the traversal would reach `p` again with `p` already on the
visited path. -/
theorem populate_cycle_fails {n : Nat} (w : World n)
    (R : Fin n → List (String × Fin n)) (p : Fin n) (ps : PMap n)
    (hchain : ReqChain R p p) (hreqs : ∀ r, (ps r).requirements = R r) :
    ∀ (f : Nat) (seen : List (Fin n)),
      (populateDependencies w f p seen ps).2 ≠ none := by
  intro f seen hsucc
  obtain ⟨f2, seen2, ps2, hsub, _, hsucc2⟩ :=
    populate_chain_success w R hchain f seen ps hreqs hsucc
  have hmem : p ∈ seen2 := hsub (List.mem_append_right _ (List.mem_singleton.mpr rfl))
  match f2 with
  | 0 => cases hsucc2
  | f2 + 1 =>
    simp only [populateDependencies, hmem, if_true] at hsucc2
    exact Option.noConfusion hsucc2

/-- C4.  For a requirement graph containing a cycle `p → … → p`, `load(p)`
fails with `CircularDependencyError` — the only error dependency
population can produce besides the model's fuel artifact, which the fuel
hypothesis excludes — reporting an offending path, and no load callable of
any plugin is invoked: the returned trace equals the initial trace. -/
theorem c4_circular_dependency_rejected {n : Nat} (w : World n) (fuel : Nat)
    (p : Fin n) (args : List Val) (kwargs : KW) (cs : LoadCS) (dpa sa : Bool)
    (sys : Sys n) (R : Fin n → List (String × Fin n))
    (hreqs : ∀ r, (sys.ps r).requirements = R r)
    (hchain : ReqChain R p p)
    (hflag : (sys.ps p).midLoad = false)
    (hnf : (populateDependencies w (fuel + 1) p [] sys.ps).2 ≠ some Err.fuelOut) :
    ∃ path,
      (load w (fuel + 1) p args kwargs cs dpa sa sys).2
        = .error (.circular path) ∧
      (load w (fuel + 1) p args kwargs cs dpa sa sys).1.trace = sys.trace := by
  have hne := populate_cycle_fails w R p sys.ps hchain hreqs (fuel + 1) []
  rcases he : (populateDependencies w (fuel + 1) p [] sys.ps).2 with _ | e
  · exact absurd he hne
  · rcases (populate_err w (fuel + 1)).1 p [] sys.ps e he with rfl | ⟨path, rfl⟩
    · exact absurd he hnf
    · have hpair : populateDependencies w (fuel + 1) p [] sys.ps
          = ((populateDependencies w (fuel + 1) p [] sys.ps).1,
             some (.circular path)) := by
        rw [← he]
      refine ⟨path, ?_, ?_⟩ <;>
      · simp only [load, hflag, Bool.false_eq_true, if_false]
        rw [hpair]
        simp [Err.isCircular]

/-- C4 (witness): in the two-plugin cycle world `A → B → A`, loading `A`
fails with `CircularDependencyError` and invokes no load callable. -/
theorem c4_circular_dependency_rejected_witness :
    ∃ path,
      (load wCyc 8 0 [] [] .replace true false sysCyc).2
        = .error (.circular path) ∧
      (load wCyc 8 0 [] [] .replace true false sysCyc).1.trace
        = sysCyc.trace := by
  exact c4_circular_dependency_rejected wCyc 7 0 [] [] .replace true false
    sysCyc cycR (by decide)
    (@ReqChain.cons 2 cycR 0 1 0 "b" (by decide)
      (@ReqChain.edge 2 cycR 1 0 "a" (by decide)))
    rfl (by decide)

end Pyplugin
